import Mathlib

/-!
Verification of the Prepster voice-interview orchestrator.

The development shallowly embeds the second (WebSocket/Deepgram) variant of
`src/components/ui/VoiceInterviewManager.tsx` — the variant all the cited
line ranges of the claims point at — together with the speech-output
function `speakText` of the third variant, the answer-generation API route,
and the PCM audio-encoding step.  Stateful component code becomes explicit
state passing over `MgrState`; every `await` boundary (a yield to the
JavaScript event loop) produces a snapshot of the state, and every
invocation of an external port (speech synthesis, audio capture, the
answer service, the WebSocket) produces an event, so that temporal claims
about the orchestration can be stated over the produced traces.
-/

/-- CallStatus enum of VoiceInterviewManager (both variants). -/
inductive CallStatus
  | INACTIVE
  | CONNECTING
  | ACTIVE
  | FINISHED
deriving DecidableEq, Repr

/-- Roles of a SavedMessage ('user' | 'system' | 'assistant'). -/
inductive Role
  | user
  | system
  | assistant
deriving DecidableEq, Repr

/-- SavedMessage: one entry of the conversation log. -/
structure SavedMessage where
  role : Role
  content : String
deriving DecidableEq, Repr

/-- The mutable state of the WebSocket variant of VoiceInterviewManager:
the React state hooks (`isSpeaking`, `callStatus`, `messages`,
`currentQuestionIndex`, `isListening`, `transcript`) and the refs
(`isProcessingRef`, `websocketRef`, `mediaStreamRef`, `processorRef`,
`audioContextRef`), with the object-valued refs abstracted to the Boolean
facts the code branches on (socket open, stream/processor/context alive). -/
structure MgrState where
  isSpeaking : Bool
  callStatus : CallStatus
  messages : List SavedMessage
  currentQuestionIndex : Nat
  isListening : Bool
  liveTranscript : String
  isProcessing : Bool
  wsOpen : Bool
  mediaStreamActive : Bool
  processorConnected : Bool
  audioContextOpen : Bool
deriving DecidableEq, Repr

/-- Initial component state: all hooks at their `useState` defaults. -/
def initialState : MgrState :=
  { isSpeaking := false
    callStatus := .INACTIVE
    messages := []
    currentQuestionIndex := 0
    isListening := false
    liveTranscript := ""
    isProcessing := false
    wsOpen := false
    mediaStreamActive := false
    processorConnected := false
    audioContextOpen := false }

/-- Instrumentation tag identifying which utterance a speech-output event
belongs to (the greeting, the k-th question, the acknowledgement to the
k-th answer, or the closing remark). -/
inductive SpeakTag
  | greeting
  | question (k : Nat)
  | ack (k : Nat)
  | closing
deriving DecidableEq, Repr

/-- Observable port events of one session.  `captureStart` records its call
site: `none` for the capture launched from the WebSocket `onopen` handler,
`some k` for the capture launched by `askNextQuestion k` after question k
was spoken. -/
inductive Ev
  | speakStart (tag : SpeakTag) (text : String)
  | speakEnd (tag : SpeakTag) (text : String)
  | serviceCall (userInput : String) (question : String)
  | captureStart (origin : Option Nat)
  | captureStop
  | wsConnect
  | wsClose
  | alertShown (msg : String)
deriving DecidableEq, Repr

/-- Result of running one orchestrator operation: the post state, the port
events it emitted (in order), and the state snapshots at each point where
the operation yielded control to the event loop (each `await`/callback
boundary — the only instants at which other JavaScript code can observe
the component's state, JavaScript being single-threaded). -/
structure RunOut where
  state : MgrState
  evs : List Ev
  snaps : List MgrState
deriving DecidableEq, Repr

/-- Fallback acknowledgement hard-wired in handleUserResponse, used when
the answer-service response is not ok. -/
def fallbackAck : String :=
  "Thank you for your answer. Let's move to the next question."

/-- Closing remark spoken after the last answer. -/
def closingText : String :=
  "Thank you for completing the interview. Have a great day!"

/-- Greeting spoken by handleCall. -/
def greetingText (userName : String) (n : Nat) : String :=
  "Hello " ++ userName ++ ". I will ask you " ++ toString n ++
    " questions. Let's begin."

/-- Outcome of one answer-service request as observed by the `fetch` in
handleUserResponse: `ok resp` (2xx with body `{response: resp}`),
`nonOk` (`response.ok` false), or `netErr` (the fetch or body parse threw,
landing in the catch block). -/
inductive SvcOutcome
  | ok (resp : String)
  | nonOk
  | netErr
deriving DecidableEq, Repr

/-- `speak`: browser TTS wrapped in a promise.  Playback runs to `onend`;
`onstart` sets the speaking flag, `onend` clears it.  One snapshot while
the utterance is playing, one after it finished. -/
def speak (s : MgrState) (tag : SpeakTag) (text : String) : RunOut :=
  let s1 := { s with isSpeaking := true }
  let s2 := { s1 with isSpeaking := false }
  { state := s2
    evs := [.speakStart tag text, .speakEnd tag text]
    snaps := [s1, s2] }

/-- stopAudioStream: stops the media tracks, disconnects the script
processor, closes the audio context, clears the listening flag and the
interim transcript.  Synchronous (no snapshot of its own). -/
def stopAudioStream (s : MgrState) : MgrState × List Ev :=
  ({ s with
      mediaStreamActive := false
      processorConnected := false
      audioContextOpen := false
      isListening := false
      liveTranscript := "" },
   [.captureStop])

/-- startAudioStream (microphone granted): first stopAudioStream, then
`await getUserMedia` (a yield), then audio context + script processor are
created and connected and the listening flag is set. -/
def startAudioStream (s : MgrState) (origin : Option Nat) : RunOut :=
  let s1 := (stopAudioStream s).1
  let s2 := { s1 with
      mediaStreamActive := true
      audioContextOpen := true
      processorConnected := true }
  let s3 := { s2 with isListening := true }
  { state := s3
    evs := (stopAudioStream s).2 ++ [.captureStart origin]
    snaps := [s1, s3] }

/-- handleDisconnect: stopAudioStream, close and null the WebSocket,
cancel speech synthesis, clear the processing flag, set FINISHED, clear
the interim transcript.  Synchronous. -/
def handleDisconnect (s : MgrState) : MgrState × List Ev :=
  let s1 := (stopAudioStream s).1
  let s2 := { s1 with wsOpen := false }
  let s3 := { s2 with
      isProcessing := false
      callStatus := .FINISHED
      liveTranscript := "" }
  (s3, (stopAudioStream s).2 ++ [.wsClose])

/-- The guard of the script processor's `onaudioprocess` callback: a PCM
frame is sent iff the processor is still connected (the callback cannot
fire otherwise), the WebSocket is OPEN and the listening flag is set. -/
def audioFrameSent (s : MgrState) : Bool :=
  s.processorConnected && s.wsOpen && s.isListening

/-- askNextQuestion questionIndex: if the index is past the question list,
handleDisconnect; otherwise append the question as an assistant turn,
speak it, and then start capture — through the already-open WebSocket, or
after reconnecting (initializeWebSocket, whose `onopen` starts the capture
with call-site `none`) when the socket is not open. -/
def askNextQuestion (qs : List String) (s : MgrState) (k : Nat) : RunOut :=
  if h : k < qs.length then
    let q := qs.get ⟨k, h⟩
    let s1 := { s with messages := s.messages ++ [⟨.assistant, q⟩] }
    let r2 := speak s1 (.question k) q
    if r2.state.wsOpen then
      let r3 := startAudioStream r2.state (some k)
      { state := r3.state
        evs := r2.evs ++ r3.evs
        snaps := r2.snaps ++ r3.snaps }
    else
      let s2 := { r2.state with wsOpen := true }
      let r3 := startAudioStream s2 none
      { state := r3.state
        evs := r2.evs ++ [.wsConnect] ++ r3.evs
        snaps := r2.snaps ++ r3.snaps }
  else
    let d := handleDisconnect s
    { state := d.1, evs := d.2, snaps := [d.1] }

/-- handleUserResponse: the final-transcript callback.  Guarded by
`isProcessingRef`; otherwise sets the processing flag, stops the capture,
appends the user turn, `await fetch` to the answer service (a yield), then
either the success path (assistant turn from the response body — or the
fixed fallback when `response.ok` is false — spoken, then advance or
close), or the catch path (clear the processing flag, advance or
disconnect without appending anything). -/
def handleUserResponse (qs : List String) (s : MgrState) (tr : String)
    (out : SvcOutcome) : RunOut :=
  if s.isProcessing then
    { state := s, evs := [], snaps := [] }
  else
    let s1 := { s with isProcessing := true }
    let s2 := (stopAudioStream s1).1
    let e2 := (stopAudioStream s1).2
    let s3 := { s2 with messages := s2.messages ++ [⟨.user, tr⟩] }
    let k := s3.currentQuestionIndex
    let eSvc : List Ev := [.serviceCall tr (qs.getD k "")]
    match out with
    | .netErr =>
      let s4 := { s3 with isProcessing := false }
      if s4.currentQuestionIndex < qs.length - 1 then
        let s5 := { s4 with
            currentQuestionIndex := s4.currentQuestionIndex + 1 }
        let r6 := askNextQuestion qs s5 s5.currentQuestionIndex
        { state := r6.state
          evs := e2 ++ eSvc ++ r6.evs
          snaps := [s3] ++ r6.snaps }
      else
        let d := handleDisconnect s4
        { state := d.1, evs := e2 ++ eSvc ++ d.2, snaps := [s3, d.1] }
    | _ =>
      let ai := match out with
        | .ok r => r
        | _ => fallbackAck
      let s4 := { s3 with messages := s3.messages ++ [⟨.assistant, ai⟩] }
      let r5 := speak s4 (.ack k) ai
      if r5.state.currentQuestionIndex < qs.length - 1 then
        let s6 := { r5.state with
            currentQuestionIndex := r5.state.currentQuestionIndex + 1
            isProcessing := false }
        let r7 := askNextQuestion qs s6 s6.currentQuestionIndex
        { state := r7.state
          evs := e2 ++ eSvc ++ r5.evs ++ r7.evs
          snaps := [s3] ++ r5.snaps ++ r7.snaps }
      else
        let r6 := speak r5.state .closing closingText
        let d := handleDisconnect r6.state
        { state := d.1
          evs := e2 ++ eSvc ++ r5.evs ++ r6.evs ++ d.2
          snaps := [s3] ++ r5.snaps ++ r6.snaps ++ [d.1] }

/-- handleCall: the start() entry point.  Empty/absent question list:
alert and return without touching any state or port.  Otherwise:
CONNECTING, reset log/cursor/processing flag, handleDisconnect (stop any
existing connection), initializeWebSocket — whose `onopen` fires during
the 1500 ms settle wait and starts the capture —, then (socket open)
ACTIVE, greeting appended and spoken, and the first question asked. -/
def handleCall (userName : String) (qs : List String) (s : MgrState) :
    RunOut :=
  if qs.length = 0 then
    { state := s, evs := [.alertShown "No questions available"], snaps := [] }
  else
    let s1 := { s with
        callStatus := .CONNECTING
        messages := []
        currentQuestionIndex := 0
        isProcessing := false }
    let s2 := (handleDisconnect s1).1
    let e2 := (handleDisconnect s1).2
    let s3 := { s2 with wsOpen := true }
    let r4 := startAudioStream s3 none
    if r4.state.wsOpen then
      let s5 := { r4.state with callStatus := .ACTIVE }
      let g := greetingText userName qs.length
      let s6 := { s5 with messages := [⟨.assistant, g⟩] }
      let r7 := speak s6 .greeting g
      let r8 := askNextQuestion qs r7.state 0
      { state := r8.state
        evs := e2 ++ [.wsConnect] ++ r4.evs ++ r7.evs ++ r8.evs
        snaps := r4.snaps ++ r7.snaps ++ r8.snaps }
    else
      let s5 := { r4.state with callStatus := .INACTIVE }
      { state := s5
        evs := e2 ++ [.wsConnect] ++ r4.evs
        snaps := r4.snaps ++ [s5] }

/-- One session: handleCall, then each final transcript in turn (each
`is_final` Deepgram result drives handleUserResponse with that question's
answer-service outcome). -/
def runAnswers (qs : List String) (s : MgrState) :
    List (String × SvcOutcome) → RunOut
  | [] => { state := s, evs := [], snaps := [] }
  | (tr, out) :: rest =>
    let r1 := handleUserResponse qs s tr out
    let r2 := runAnswers qs r1.state rest
    { state := r2.state, evs := r1.evs ++ r2.evs, snaps := r1.snaps ++ r2.snaps }

/-- Full session run from the initial component state. -/
def runSession (userName : String) (qs : List String)
    (answers : List (String × SvcOutcome)) : RunOut :=
  let r1 := handleCall userName qs initialState
  let r2 := runAnswers qs r1.state answers
  { state := r2.state, evs := r1.evs ++ r2.evs, snaps := r1.snaps ++ r2.snaps }

/-- A single-question session of the WebSocket variant under the schedule
in which the Deepgram final transcript arrives while question 0's
playback is still pending — a reachable schedule, since the capture
opened by the WebSocket `onopen` handler is live (and streaming the TTS
and ambient audio to the transcriber) during the greeting and question-0
playback.  The stages mirror the source exactly: handleCall through the
greeting; askNextQuestion 0 appends the question turn and its utterance
starts (`onstart` sets the speaking flag); `ws.onmessage` then invokes
handleUserResponse, whose synchronous prefix sets `isProcessingRef`,
runs stopAudioStream and appends the user turn before suspending at the
fetch; the utterance ends and the speak promise resolves, so
askNextQuestion's continuation restarts the capture (startAudioStream,
setting the listening flag) while the fetch is still pending and
`isProcessingRef` is still true; the fetch then resolves and
handleUserResponse continues — the cursor is on the last index, so the
acknowledgement and closing remark are spoken (the capture restarted
moments earlier is never stopped before them) and handleDisconnect ends
the session. -/
def runEarlyTranscript (userName q tr resp : String) : RunOut :=
  let s1 := { initialState with
      callStatus := .CONNECTING
      messages := []
      currentQuestionIndex := 0
      isProcessing := false }
  let s2 := (handleDisconnect s1).1
  let s3 := { s2 with wsOpen := true }
  let r4 := startAudioStream s3 none
  let s5 := { r4.state with callStatus := .ACTIVE }
  let g := greetingText userName 1
  let s6 := { s5 with messages := [SavedMessage.mk .assistant g] }
  let r7 := speak s6 .greeting g
  let s8 := { r7.state with
      messages := r7.state.messages ++ [SavedMessage.mk .assistant q] }
  let s9 := { s8 with isSpeaking := true }
  let s10 := { s9 with isProcessing := true }
  let s11 := (stopAudioStream s10).1
  let s12 := { s11 with messages := s11.messages ++ [SavedMessage.mk .user tr] }
  let s13 := { s12 with isSpeaking := false }
  let r14 := startAudioStream s13 (some 0)
  let s15 := { r14.state with
      messages := r14.state.messages ++ [SavedMessage.mk .assistant resp] }
  let r16 := speak s15 (.ack 0) resp
  let r17 := speak r16.state .closing closingText
  let d18 := handleDisconnect r17.state
  { state := d18.1
    evs := (handleDisconnect s1).2 ++ [.wsConnect] ++ r4.evs ++ r7.evs
      ++ [.speakStart (.question 0) q]
      ++ (stopAudioStream s10).2 ++ [.serviceCall tr q]
      ++ [.speakEnd (.question 0) q] ++ r14.evs
      ++ r16.evs ++ r17.evs ++ d18.2
    snaps := r4.snaps ++ r7.snaps ++ [s9, s12, s13] ++ r14.snaps
      ++ r16.snaps ++ r17.snaps ++ [d18.1] }

/-- Outcome of one TTS playback attempt as seen by the utterance handlers:
normal completion (`onend`), an error event with a kind string
(`onerror`), or speech synthesis absent from the window object. -/
inductive PlayOutcome
  | ends
  | errorEvent (kind : String)
  | unsupported
deriving DecidableEq, Repr

/-- How the promise of an utterance settles. -/
inductive Settle
  | resolved
  | rejected (reason : String)
deriving DecidableEq, Repr

/-- Settlement of the promise returned by `speak` of the WebSocket
variant: `onend` resolves, `onerror` resolves, unsupported synthesis
resolves immediately. -/
def speakSettle : PlayOutcome → Settle
  | .ends => .resolved
  | .errorEvent _ => .resolved
  | .unsupported => .resolved

/-- Settlement of the promise returned by `speakText` of the third
variant: `onend` resolves; `onerror` resolves only for the 'canceled'
error kind and rejects with the error kind otherwise; unsupported
synthesis rejects. -/
def speakTextSettle : PlayOutcome → Settle
  | .ends => .resolved
  | .errorEvent kind => if kind = "canceled" then .resolved else .rejected kind
  | .unsupported => .rejected "Speech synthesis not supported"

/-- The four hard-coded fallback strings of the answer-generation route. -/
def routeFallbacks : List String :=
  [ "That's interesting. Could you tell me more about that?"
  , "I see. Can you elaborate on your approach?"
  , "Thank you for sharing. What challenges did you face?"
  , "Interesting perspective. How did you handle that situation?" ]

/-- What the route's try block observes: either the whole body (request
parse, history mapping, Gemini call) produced a text, or something in it
threw. -/
inductive GenOutcome
  | success (text : String)
  | failure
deriving DecidableEq, Repr

/-- JavaScript's String.prototype.trim: strip leading and trailing
whitespace (modelled over the character list). -/
def jsTrim (t : String) : String :=
  ⟨((t.data.dropWhile Char.isWhitespace).reverse.dropWhile
      Char.isWhitespace).reverse⟩

/-- The answer-generation POST route: on success, HTTP 200 with the
trimmed model text; on any throw, HTTP 200 with
`fallbacks[Math.floor(Math.random() * fallbacks.length)]` — the random
draw is the `Fin 4` parameter. -/
def interviewResponsePOST (out : GenOutcome) (i : Fin 4) : Nat × String :=
  match out with
  | .success t => (200, jsTrim t)
  | .failure => (200, routeFallbacks.get i)

/-- Truncation toward zero — JavaScript's ToInteger on a finite value. -/
def truncZ (x : ℚ) : ℤ :=
  if 0 ≤ x then ⌊x⌋ else ⌈x⌉

/-- JavaScript's ToInt16: truncate toward zero, then wrap into
[-32768, 32767] — what storing into an Int16Array element does. -/
def toInt16 (x : ℚ) : ℤ :=
  (truncZ x + 32768) % 65536 - 32768

/-- The scaling step of the capture loop: `sample < 0 ? sample * 32768 :
sample * 32767`. -/
def pcmScale (sample : ℚ) : ℚ :=
  if sample < 0 then sample * 32768 else sample * 32767

/-- One element of the Int16Array built by `onaudioprocess`. -/
def pcmEncode (sample : ℚ) : ℤ :=
  toInt16 (pcmScale sample)

/-- The acknowledgement text handleUserResponse ends up speaking for a
returned (non-thrown) answer-service request: the response body on ok,
the fixed fallback otherwise. -/
def ackText : SvcOutcome → String
  | .ok r => r
  | _ => fallbackAck

/-- Acknowledgement turns appended to the log for one answer: one
assistant turn when the request returned, none when it threw. -/
def ackTurns : SvcOutcome → List SavedMessage
  | .netErr => []
  | out => [⟨.assistant, ackText out⟩]

/-- Expected conversation log after the greeting, for a finished session:
per question, its assistant turn, the user's transcript turn, and the
acknowledgement turns of its answer-service outcome. -/
def expectedLog : List String → List (String × SvcOutcome) → List SavedMessage
  | q :: qs, (tr, out) :: rest =>
    ⟨.assistant, q⟩ :: ⟨.user, tr⟩ :: (ackTurns out ++ expectedLog qs rest)
  | _, _ => []

/-- Log fragment produced by the answer blocks of a session whose cursor
starts at c: the user turn, the acknowledgement turns, and — when c is
not the last index — the next question's assistant turn. -/
def blockLog (qs : List String) : Nat → List (String × SvcOutcome) → List SavedMessage
  | _, [] => []
  | c, (tr, out) :: rest =>
    ⟨.user, tr⟩ ::
      (ackTurns out ++
        if c < qs.length - 1 then
          ⟨.assistant, qs.getD (c + 1) ""⟩ :: blockLog qs (c + 1) rest
        else [])

/-- Event is the playback start of question k. -/
def isQStart (k : Nat) : Ev → Bool
  | .speakStart (.question j) _ => j == k
  | _ => false

/-- Event is the playback end of question k. -/
def isQEnd (k : Nat) : Ev → Bool
  | .speakEnd (.question j) _ => j == k
  | _ => false

/-- Event is the playback end of the acknowledgement to answer k. -/
def isAckEnd (k : Nat) : Ev → Bool
  | .speakEnd (.ack j) _ => j == k
  | _ => false

/-- Event is the playback start of any acknowledgement. -/
def isAckStart : Ev → Bool
  | .speakStart (.ack _) _ => true
  | _ => false

/-- Event is a capture start (any call site). -/
def isCapStart : Ev → Bool
  | .captureStart _ => true
  | _ => false

/-- Event is the capture start issued by askNextQuestion k. -/
def isCaptureSome (k : Nat) : Ev → Bool
  | .captureStart (some j) => j == k
  | _ => false

/-- `noEarlier evs pa pb`: some event satisfying pa occurs in evs and no
event satisfying pb occurs anywhere before it. -/
def noEarlier (evs : List Ev) (pa pb : Ev → Bool) : Prop :=
  ∃ l1 a l2, evs = l1 ++ a :: l2 ∧ pa a = true ∧ ∀ b ∈ l1, pb b = false

/-- Scans an event list: true iff a capture start occurs strictly before
the first playback end of question 0 (and that playback end occurs). -/
def captureBeforeQ0End : List Ev → Bool
  | [] => false
  | e :: rest =>
    if isQEnd 0 e then false
    else if isCapStart e then rest.any (isQEnd 0)
    else captureBeforeQ0End rest

/-- C1: a final-transcript callback (handleUserResponse) arriving while
the processing flag is already set is ignored completely: the state is
unchanged — in particular no second user turn is appended — and no event
is emitted — in particular no second answer-service call is made. -/
theorem c1_duplicate_transcript_ignored (qs : List String) (s : MgrState)
    (tr : String) (out : SvcOutcome) (h : s.isProcessing = true) :
    handleUserResponse qs s tr out = ⟨s, [], []⟩ := by
  simp [handleUserResponse, h]

/-- Witness for C1 at a concrete processing-phase state. -/
theorem c1_witness :
    handleUserResponse ["Q0"] { initialState with isProcessing := true }
      "again" .nonOk = ⟨{ initialState with isProcessing := true }, [], []⟩ :=
  c1_duplicate_transcript_ignored ["Q0"]
    { initialState with isProcessing := true } "again" .nonOk rfl

/-- C5: handleCall with an empty question list only shows the alert: the
state is returned unchanged (so CallState stays Inactive when it was
Inactive) and the only emitted event is the alert — the speech-output and
speech-input ports are never invoked. -/
theorem c5_empty_questions_no_effect (userName : String) (s : MgrState) :
    handleCall userName [] s
      = ⟨s, [.alertShown "No questions available"], []⟩ ∧
    ((handleCall userName [] s).evs.all fun e =>
      match e with
      | .alertShown _ => true
      | _ => false) = true := by
  constructor
  · simp [handleCall]
  · simp [handleCall]

/-- C6 counterexample: the claim says both speech-output operations never
reject.  `speakText` of the third variant rejects a playback error whose
kind is not 'canceled' (its `onerror` handler calls reject), so the claim
as stated is false; `speak` of the WebSocket variant does resolve there. -/
theorem c6_counterexample_speakText_rejects :
    speakTextSettle (.errorEvent "not-allowed") = .rejected "not-allowed" ∧
    speakSettle (.errorEvent "not-allowed") = .resolved := by
  constructor
  · decide
  · rfl

/-- C6 amended: `speak` resolves on every playback outcome (normal end,
error event, unsupported synthesis) — it never rejects; `speakText`
resolves exactly on normal completion and on the 'canceled' error kind,
and rejects on every other error kind and on unsupported synthesis. -/
theorem c6_speech_output_settlement (o : PlayOutcome) :
    speakSettle o = .resolved ∧
    (speakTextSettle o = .resolved ↔ (o = .ends ∨ o = .errorEvent "canceled")) := by
  cases o with
  | ends => simp [speakSettle, speakTextSettle]
  | errorEvent kind =>
    refine ⟨rfl, ?_⟩
    simp only [speakTextSettle]
    by_cases h : kind = "canceled" <;> simp [h]
  | unsupported => simp [speakSettle, speakTextSettle]

/-- C9 counterexample: when the generation call succeeds but its text
trims to the empty string, the route returns 200 with an empty response
string — so "a JSON body containing a non-empty response string" does not
hold of every request. -/
theorem c9_counterexample_empty_response :
    interviewResponsePOST (.success "  ") ⟨0, by decide⟩ = (200, "") := by
  decide

/-- C9 amended: every request is answered with HTTP 200 (the catch also
returns 200, so a model failure is indistinguishable from success at the
status level); on an internal failure the body is one of the four fixed,
non-empty fallback strings; on success the body is the trimmed model
text, which can be empty. -/
theorem c9_route_always_200 (out : GenOutcome) (i : Fin 4) :
    (interviewResponsePOST out i).1 = 200 ∧
    (out = .failure →
      (interviewResponsePOST out i).2 ∈ routeFallbacks ∧
      (interviewResponsePOST out i).2 ≠ "") ∧
    (∀ t, out = .success t → (interviewResponsePOST out i).2 = jsTrim t) := by
  cases out with
  | success t =>
    refine ⟨rfl, ?_, ?_⟩
    · intro h
      cases h
    · intro u h
      cases h
      rfl
  | failure =>
    refine ⟨rfl, ?_, ?_⟩
    · intro _
      constructor
      · exact List.get_mem routeFallbacks i.1 i.2
      · fin_cases i <;> decide
    · intro u h
      cases h

/-- Witness for C9 at concrete outcomes. -/
theorem c9_witness :
    (interviewResponsePOST .failure ⟨2, by decide⟩).2 ∈ routeFallbacks ∧
    (interviewResponsePOST (.success "hello") ⟨0, by decide⟩).1 = 200 :=
  ⟨((c9_route_always_200 .failure ⟨2, by decide⟩).2.1 rfl).1,
   (c9_route_always_200 (.success "hello") ⟨0, by decide⟩).1⟩

/-- C10: a PCM frame is sent by the onaudioprocess callback only when the
WebSocket is OPEN and the listening flag is set (and the processor is
still connected, or the callback cannot fire at all); and after
stopAudioStream — which clears the listening flag, disconnects the
processor and closes the context — no further frame can be sent. -/
theorem c10_frames_only_while_open_and_listening :
    (∀ s : MgrState, audioFrameSent (stopAudioStream s).1 = false) ∧
    (∀ s : MgrState, audioFrameSent s = true →
      s.wsOpen = true ∧ s.isListening = true) := by
  constructor
  · intro s
    simp [audioFrameSent, stopAudioStream]
  · intro s h
    simp only [audioFrameSent, Bool.and_eq_true] at h
    exact ⟨h.1.2, h.2⟩

/-- Witness for C10 at a concrete streaming state. -/
theorem c10_witness :
    audioFrameSent (stopAudioStream { initialState with
      wsOpen := true, isListening := true, processorConnected := true,
      mediaStreamActive := true, audioContextOpen := true }).1 = false ∧
    ({ initialState with
      wsOpen := true, isListening := true, processorConnected := true,
      mediaStreamActive := true, audioContextOpen := true } : MgrState).wsOpen = true :=
  ⟨c10_frames_only_while_open_and_listening.1 _,
   (c10_frames_only_while_open_and_listening.2
     { initialState with
      wsOpen := true, isListening := true, processorConnected := true,
      mediaStreamActive := true, audioContextOpen := true } rfl).1⟩

/-- The truncated scaled sample lies in the signed 16-bit range. -/
theorem truncZ_pcm_bounds (s : ℚ) (h1 : -1 ≤ s) (h2 : s ≤ 1) :
    -32768 ≤ truncZ (pcmScale s) ∧ truncZ (pcmScale s) ≤ 32767 := by
  unfold truncZ pcmScale
  by_cases hs : s < 0
  · have hx1 : (-32768 : ℚ) ≤ s * 32768 := by nlinarith
    have hx2 : s * 32768 < 0 := by nlinarith
    rw [if_pos hs, if_neg (by linarith)]
    constructor
    · have hc : ⌈((-32768 : ℤ) : ℚ)⌉ ≤ ⌈s * 32768⌉ :=
        Int.ceil_le_ceil (by push_cast; linarith)
      simpa using hc
    · have hc : ⌈s * 32768⌉ ≤ ⌈(0 : ℚ)⌉ := Int.ceil_le_ceil (le_of_lt hx2)
      have h0 : ⌈(0 : ℚ)⌉ = 0 := by simp
      omega
  · push_neg at hs
    have hx1 : (0 : ℚ) ≤ s * 32767 := by nlinarith
    have hx2 : s * 32767 ≤ 32767 := by nlinarith
    rw [if_neg (not_lt.mpr hs), if_pos hx1]
    constructor
    · have : (0 : ℤ) ≤ ⌊s * 32767⌋ := Int.floor_nonneg.mpr hx1
      omega
    · have hc : ⌊s * 32767⌋ ≤ ⌊((32767 : ℤ) : ℚ)⌋ :=
        Int.floor_le_floor (by push_cast; linarith)
      simpa using hc

/-- ToInt16 is the identity on values already in the 16-bit range. -/
theorem int16_wrap_eq (t : ℤ) (h1 : -32768 ≤ t) (h2 : t ≤ 32767) :
    (t + 32768) % 65536 - 32768 = t := by
  rw [Int.emod_eq_of_lt (by omega) (by omega)]
  omega

/-- C8: for every captured sample s ∈ [-1, 1], the PCM encoding
(negative samples scaled by 32768, non-negative by 32767, truncated and
stored as Int16) stays inside [-32768, 32767] and equals the plain
truncation — the 16-bit wrap never fires, i.e. no overflow — and the
endpoints map to -32768 and 32767 exactly. -/
theorem c8_pcm_encoding_in_range :
    (∀ s : ℚ, -1 ≤ s → s ≤ 1 →
      -32768 ≤ pcmEncode s ∧ pcmEncode s ≤ 32767 ∧
      pcmEncode s = truncZ (pcmScale s)) ∧
    pcmEncode (-1) = -32768 ∧ pcmEncode 1 = 32767 := by
  refine ⟨?_, ?_, ?_⟩
  · intro s h1 h2
    obtain ⟨b1, b2⟩ := truncZ_pcm_bounds s h1 h2
    have hw : pcmEncode s = truncZ (pcmScale s) := by
      unfold pcmEncode toInt16
      exact int16_wrap_eq _ b1 b2
    exact ⟨by omega, by omega, hw⟩
  · have h1 : pcmScale (-1) = -32768 := by norm_num [pcmScale]
    have h2 : truncZ (-32768) = -32768 := by
      have hn : ¬ (0:ℚ) ≤ -32768 := by norm_num
      rw [truncZ, if_neg hn]
      rw [show ((-32768:ℚ)) = ((-32768:ℤ):ℚ) by norm_num, Int.ceil_intCast]
    rw [pcmEncode, h1, toInt16, h2]
    decide
  · have h1 : pcmScale 1 = 32767 := by norm_num [pcmScale]
    have h2 : truncZ 32767 = 32767 := by
      have hn : (0:ℚ) ≤ 32767 := by norm_num
      rw [truncZ, if_pos hn]
      rw [show ((32767:ℚ)) = ((32767:ℤ):ℚ) by norm_num, Int.floor_intCast]
    rw [pcmEncode, h1, toInt16, h2]
    decide

/-- Witness for C8 at the concrete sample 1/2. -/
theorem c8_witness :
    -32768 ≤ pcmEncode (1/2) ∧ pcmEncode (1/2) ≤ 32767 ∧
    pcmEncode (1/2) = truncZ (pcmScale (1/2)) :=
  c8_pcm_encoding_in_range.1 (1/2) (by norm_num) (by norm_num)

/-- C2: the mutual-exclusion invariant the claim (and the spec) demand is
not maintained by the code — evaluating the code at the failing input.
In the nominal one-question session, a reachable snapshot has the
speaking and processing flags simultaneously set (the acknowledgement
plays while `isProcessingRef` is still true).  Under the schedule in
which the final transcript arrives during question 0's playback (the
connection-time capture is live then), a reachable snapshot has the
listening and processing flags simultaneously set — askNextQuestion's
continuation restarts the capture while the fetch is pending — and,
while the acknowledgement then plays, all three flags are set at once.
Both schedules still run to FINISHED. -/
theorem c2_turnlock_overlap_at_failing_input :
    ((runSession "Ana" ["Q0"] [("a", .ok "Great")]).snaps.any fun st =>
      st.isSpeaking && st.isProcessing) = true ∧
    ((runEarlyTranscript "Ana" "Q0" "a" "Great").snaps.any fun st =>
      st.isListening && st.isProcessing) = true ∧
    ((runEarlyTranscript "Ana" "Q0" "a" "Great").snaps.any fun st =>
      st.isSpeaking && st.isListening && st.isProcessing) = true ∧
    (runEarlyTranscript "Ana" "Q0" "a" "Great").state.callStatus
      = .FINISHED := by
  refine ⟨?_, ?_, ?_, ?_⟩ <;> decide

/-- C3 counterexample: the concrete one-question session reaches
Finished, yet the cursor equals 0, not the question-set length 1 (the
last-answer branch disconnects without incrementing), and the log holds
three assistant turns (greeting, question, acknowledgement), not "exactly
one Assistant turn per question". -/
theorem c3_counterexample_cursor_at_finished :
    (runSession "Ana" ["Q0"] [("a", .ok "Great")]).state.callStatus
        = .FINISHED ∧
    (runSession "Ana" ["Q0"] [("a", .ok "Great")]).state.currentQuestionIndex
        ≠ (["Q0"] : List String).length ∧
    ((runSession "Ana" ["Q0"] [("a", .ok "Great")]).state.messages.countP
        fun m => m.role == Role.assistant) ≠ (["Q0"] : List String).length := by
  refine ⟨?_, ?_, ?_⟩ <;> decide

/-- C4 counterexample: in a concrete two-question session whose first
answer-service request throws (network error), the cursor still advances
to 1, but no fallback acknowledgement is appended to the log and no
acknowledgement is spoken — refuting "appends a fixed fallback Assistant
acknowledgement ... and speaks it" for the network-error case. -/
theorem c4_counterexample_network_error_no_fallback :
    (runSession "Ana" ["Q1", "Q2"] [("a", .netErr)]).state.currentQuestionIndex
        = 1 ∧
    ((runSession "Ana" ["Q1", "Q2"] [("a", .netErr)]).state.messages.all
        fun m => m.content != fallbackAck) = true ∧
    ((runSession "Ana" ["Q1", "Q2"] [("a", .netErr)]).evs.all
        fun e => !(isAckStart e)) = true := by
  refine ⟨?_, ?_, ?_⟩ <;> decide

/-- C7 counterexample: in the concrete one-question session, a capture
start occurs strictly before the playback of question 0 has ended (the
capture opened by the WebSocket `onopen` handler is live during the
greeting and during question 0), and a snapshot with both the speaking
and listening flags set is reachable — refuting "audio capture
(listening) for a question never starts before the spoken playback of
that question has completed" for the first question. -/
theorem c7_counterexample_capture_during_first_question :
    captureBeforeQ0End (runSession "Ana" ["Q0"] [("a", .ok "Great")]).evs
        = true ∧
    ((runSession "Ana" ["Q0"] [("a", .ok "Great")]).snaps.any fun st =>
      st.isSpeaking && st.isListening) = true := by
  constructor <;> decide

/-- Acknowledgement speech events of one answer block. -/
def ackEvs (c : Nat) : SvcOutcome → List Ev
  | .netErr => []
  | out => [.speakStart (.ack c) (ackText out), .speakEnd (.ack c) (ackText out)]

/-- Closing-remark speech events of the final answer block. -/
def closingEvs : SvcOutcome → List Ev
  | .netErr => []
  | _ => [.speakStart .closing closingText, .speakEnd .closing closingText]

/-- State after handleUserResponse on a non-final question: user turn,
acknowledgement turns and the next question appended, cursor advanced,
processing flag cleared, capture restarted. -/
theorem hur_state_nonlast (qs : List String) (s : MgrState) (tr : String)
    (out : SvcOutcome) (hp : s.isProcessing = false) (hws : s.wsOpen = true)
    (hlt : s.currentQuestionIndex < qs.length - 1) :
    (handleUserResponse qs s tr out).state =
      { s with
        messages := s.messages ++ ⟨.user, tr⟩ :: (ackTurns out ++
          [⟨.assistant, qs.getD (s.currentQuestionIndex + 1) ""⟩])
        currentQuestionIndex := s.currentQuestionIndex + 1
        isSpeaking := false
        isProcessing := false
        isListening := true
        liveTranscript := ""
        wsOpen := true
        mediaStreamActive := true
        processorConnected := true
        audioContextOpen := true } := by
  obtain ⟨sp, cs, ms, ci, il, lt, ip, ws, msa, pc, ac⟩ := s
  simp only [MgrState.isProcessing] at hp
  simp only [MgrState.wsOpen] at hws
  simp only [MgrState.currentQuestionIndex] at hlt ⊢
  subst hp hws
  have hl2 : ci + 1 < qs.length := by omega
  cases out <;>
    simp [handleUserResponse, stopAudioStream, speak, askNextQuestion,
      startAudioStream, hlt, hl2, ackTurns, ackText,
      List.getD_eq_getElem, List.get_eq_getElem]

/-- Events of handleUserResponse on a non-final question: capture stop,
service call, acknowledgement playback (for a returned request), next
question playback, capture restart tagged with the next index. -/
theorem hur_evs_nonlast (qs : List String) (s : MgrState) (tr : String)
    (out : SvcOutcome) (hp : s.isProcessing = false) (hws : s.wsOpen = true)
    (hlt : s.currentQuestionIndex < qs.length - 1) :
    (handleUserResponse qs s tr out).evs =
      [.captureStop, .serviceCall tr (qs.getD s.currentQuestionIndex "")] ++
      ackEvs s.currentQuestionIndex out ++
      [.speakStart (.question (s.currentQuestionIndex + 1))
          (qs.getD (s.currentQuestionIndex + 1) ""),
        .speakEnd (.question (s.currentQuestionIndex + 1))
          (qs.getD (s.currentQuestionIndex + 1) ""),
        .captureStop,
        .captureStart (some (s.currentQuestionIndex + 1))] := by
  obtain ⟨sp, cs, ms, ci, il, lt, ip, ws, msa, pc, ac⟩ := s
  simp only [MgrState.isProcessing] at hp
  simp only [MgrState.wsOpen] at hws
  simp only [MgrState.currentQuestionIndex] at hlt ⊢
  subst hp hws
  have hl2 : ci + 1 < qs.length := by omega
  cases out <;>
    simp [handleUserResponse, stopAudioStream, speak, askNextQuestion,
      startAudioStream, hlt, hl2, ackEvs, ackText,
      List.getD_eq_getElem, List.get_eq_getElem]

/-- State after handleUserResponse on the final question: user turn and
acknowledgement turns appended, session FINISHED, cursor NOT advanced,
all capture resources and the socket released. -/
theorem hur_state_last (qs : List String) (s : MgrState) (tr : String)
    (out : SvcOutcome) (hp : s.isProcessing = false)
    (hsp : s.isSpeaking = false)
    (hge : ¬ s.currentQuestionIndex < qs.length - 1) :
    (handleUserResponse qs s tr out).state =
      { s with
        messages := s.messages ++ ⟨.user, tr⟩ :: ackTurns out
        callStatus := .FINISHED
        isSpeaking := false
        isProcessing := false
        isListening := false
        liveTranscript := ""
        wsOpen := false
        mediaStreamActive := false
        processorConnected := false
        audioContextOpen := false } := by
  obtain ⟨sp, cs, ms, ci, il, lt, ip, ws, msa, pc, ac⟩ := s
  simp only [MgrState.isProcessing] at hp
  simp only [MgrState.isSpeaking] at hsp
  simp only [MgrState.currentQuestionIndex] at hge ⊢
  subst hp hsp
  cases out <;>
    simp [handleUserResponse, stopAudioStream, speak, handleDisconnect,
      hge, ackTurns, ackText]

/-- Events of handleUserResponse on the final question: capture stop,
service call, acknowledgement and closing playback (for a returned
request), capture stop and socket close. -/
theorem hur_evs_last (qs : List String) (s : MgrState) (tr : String)
    (out : SvcOutcome) (hp : s.isProcessing = false)
    (hge : ¬ s.currentQuestionIndex < qs.length - 1) :
    (handleUserResponse qs s tr out).evs =
      [.captureStop, .serviceCall tr (qs.getD s.currentQuestionIndex "")] ++
      ackEvs s.currentQuestionIndex out ++ closingEvs out ++
      [.captureStop, .wsClose] := by
  obtain ⟨sp, cs, ms, ci, il, lt, ip, ws, msa, pc, ac⟩ := s
  simp only [MgrState.isProcessing] at hp
  simp only [MgrState.currentQuestionIndex] at hge ⊢
  subst hp
  cases out <;>
    simp [handleUserResponse, stopAudioStream, speak, handleDisconnect,
      hge, ackEvs, closingEvs, ackText]

/-- State after a successful handleCall: ACTIVE, greeting and first
question logged, cursor 0, capture open and listening. -/
theorem handleCall_state (userName : String) (q : String) (qs' : List String) :
    (handleCall userName (q :: qs') initialState).state =
      { isSpeaking := false
        callStatus := .ACTIVE
        messages := [⟨.assistant, greetingText userName (qs'.length + 1)⟩,
          ⟨.assistant, q⟩]
        currentQuestionIndex := 0
        isListening := true
        liveTranscript := ""
        isProcessing := false
        wsOpen := true
        mediaStreamActive := true
        processorConnected := true
        audioContextOpen := true } := by
  simp [handleCall, handleDisconnect, stopAudioStream, startAudioStream,
    speak, askNextQuestion, initialState]

/-- Events of a successful handleCall: the reset disconnect, the socket
connect whose onopen opens the capture, greeting playback, question-0
playback, and the capture restart for question 0. -/
theorem handleCall_evs (userName : String) (q : String) (qs' : List String) :
    (handleCall userName (q :: qs') initialState).evs =
      [.captureStop, .wsClose, .wsConnect, .captureStop, .captureStart none,
        .speakStart .greeting (greetingText userName (qs'.length + 1)),
        .speakEnd .greeting (greetingText userName (qs'.length + 1)),
        .speakStart (.question 0) q, .speakEnd (.question 0) q,
        .captureStop, .captureStart (some 0)] := by
  simp [handleCall, handleDisconnect, stopAudioStream, startAudioStream,
    speak, askNextQuestion, initialState]

/-- A session whose every question receives exactly one final transcript
ends FINISHED with the cursor on the last index and the log extended by
the per-question blocks. -/
theorem runAnswers_finishes (qs : List String) :
    ∀ (ans : List (String × SvcOutcome)) (s : MgrState),
      s.isProcessing = false → s.wsOpen = true → s.isSpeaking = false →
      ans ≠ [] → s.currentQuestionIndex + ans.length = qs.length →
      (runAnswers qs s ans).state.callStatus = .FINISHED ∧
      (runAnswers qs s ans).state.currentQuestionIndex = qs.length - 1 ∧
      (runAnswers qs s ans).state.messages =
        s.messages ++ blockLog qs s.currentQuestionIndex ans
  | [], s => by
    intro _ _ _ hne _
    exact absurd rfl hne
  | (tr, out) :: rest, s => by
    intro hp hws hsp _ hlen
    by_cases hlt : s.currentQuestionIndex < qs.length - 1
    · have hs' := hur_state_nonlast qs s tr out hp hws hlt
      have hrest : rest ≠ [] := by
        intro hr
        subst hr
        simp at hlen
        omega
      have ih := runAnswers_finishes qs rest
        (handleUserResponse qs s tr out).state
      rw [hs'] at ih
      have ih2 := ih rfl rfl rfl hrest (by simp at hlen ⊢; omega)
      simp only [runAnswers]
      rw [hs']
      refine ⟨ih2.1, ih2.2.1, ?_⟩
      rw [ih2.2.2]
      simp only [blockLog, if_pos hlt]
      simp
    · have hs' := hur_state_last qs s tr out hp hsp hlt
      have hrest : rest = [] := by
        cases rest with
        | nil => rfl
        | cons a l =>
          exfalso
          simp at hlen
          omega
      subst hrest
      simp only [runAnswers]
      rw [hs']
      refine ⟨rfl, ?_, ?_⟩
      · simp at hlen ⊢
        omega
      · simp [blockLog, if_neg hlt]

/-- The code-shaped block log, prefixed with the current question turn,
is the spec-shaped expected log of the remaining questions. -/
theorem blockLog_expectedLog (qs : List String) :
    ∀ (ans : List (String × SvcOutcome)) (c : Nat),
      c + ans.length = qs.length → c < qs.length →
      ⟨Role.assistant, qs.getD c ""⟩ :: blockLog qs c ans
        = expectedLog (qs.drop c) ans
  | [], c => by
    intro hlen hc
    simp at hlen
    omega
  | (tr, out) :: rest, c => by
    intro hlen hc
    have hdrop : qs.drop c = qs.getD c "" :: qs.drop (c + 1) := by
      rw [List.getD_eq_getElem qs "" hc]
      exact List.drop_eq_getElem_cons hc
    rw [hdrop]
    by_cases hlt : c < qs.length - 1
    · have hc2 : c + 1 < qs.length := by omega
      have ih := blockLog_expectedLog qs rest (c + 1)
        (by simp at hlen ⊢; omega) hc2
      simp only [blockLog, if_pos hlt, expectedLog]
      rw [← ih]
    · have hrest : rest = [] := by
        cases rest with
        | nil => rfl
        | cons a l =>
          exfalso
          simp at hlen
          omega
      subst hrest
      simp only [blockLog, if_neg hlt, expectedLog]
      cases qs.drop (c + 1) with
      | nil => simp [expectedLog]
      | cons b l => simp [expectedLog]

/-- C3 amended: a session started on a non-empty question set in which
every question receives a final transcript reaches Finished with the
cursor equal to the question-set length MINUS ONE (the last-answer branch
disconnects without incrementing), and its conversation log is exactly
the greeting followed by, per question, one assistant question turn, one
user transcript turn, and one assistant acknowledgement turn when that
question's answer-service request returned (none when it threw). -/
theorem c3_finished_cursor_and_log (userName : String) (qs : List String)
    (ans : List (String × SvcOutcome)) (h1 : qs ≠ [])
    (h2 : ans.length = qs.length) :
    (runSession userName qs ans).state.callStatus = .FINISHED ∧
    (runSession userName qs ans).state.currentQuestionIndex
      = qs.length - 1 ∧
    (runSession userName qs ans).state.messages =
      ⟨.assistant, greetingText userName qs.length⟩ :: expectedLog qs ans := by
  obtain ⟨q, qs'⟩ := List.exists_cons_of_ne_nil h1
  obtain ⟨qs'', rfl⟩ := qs'
  have hc := handleCall_state userName q qs''
  have hane : ans ≠ [] := by
    intro h
    subst h
    simp at h2
  have hfin := runAnswers_finishes (q :: qs'') ans
    (handleCall userName (q :: qs'') initialState).state
  rw [hc] at hfin
  have hfin2 := hfin rfl rfl rfl hane (by simpa using h2)
  simp only [runSession]
  rw [hc]
  refine ⟨hfin2.1, by simpa using hfin2.2.1, ?_⟩
  rw [hfin2.2.2]
  have hb := blockLog_expectedLog (q :: qs'') ans 0
    (by simpa using h2) (by simp)
  simp only [List.drop_zero, List.getD_cons_zero] at hb
  simp only [List.cons_append, List.nil_append, List.length_cons]
  rw [hb]

/-- Witness for C3 at a concrete one-question session. -/
theorem c3_witness :
    (runSession "Ana" ["Q0"] [("a", .ok "Great")]).state.callStatus
        = .FINISHED ∧
    (runSession "Ana" ["Q0"] [("a", .ok "Great")]).state.currentQuestionIndex
        = (["Q0"] : List String).length - 1 ∧
    (runSession "Ana" ["Q0"] [("a", .ok "Great")]).state.messages =
      ⟨.assistant, greetingText "Ana" 1⟩ ::
        expectedLog ["Q0"] [("a", .ok "Great")] :=
  c3_finished_cursor_and_log "Ana" ["Q0"] [("a", .ok "Great")]
    (by decide) (by decide)

/-- C4 amended: when the answer-service request returns a non-success
response, handleUserResponse appends the fixed fallback acknowledgement,
speaks it, clears the processing flag and advances the cursor (or
finishes on the last question); when the request throws (network error),
it still clears the processing flag and advances or finishes — never a
stuck Processing state — but appends no fallback turn and speaks no
acknowledgement. -/
theorem c4_service_failure_forward_progress (qs : List String)
    (s : MgrState) (tr : String) (hp : s.isProcessing = false)
    (hws : s.wsOpen = true) (hsp : s.isSpeaking = false) :
    ((handleUserResponse qs s tr .nonOk).state.messages =
      s.messages ++ ⟨.user, tr⟩ :: ⟨.assistant, fallbackAck⟩ ::
        (if s.currentQuestionIndex < qs.length - 1 then
          [⟨Role.assistant, qs.getD (s.currentQuestionIndex + 1) ""⟩]
        else [])) ∧
    (Ev.speakStart (.ack s.currentQuestionIndex) fallbackAck
      ∈ (handleUserResponse qs s tr .nonOk).evs) ∧
    ((handleUserResponse qs s tr .nonOk).state.isProcessing = false) ∧
    (if s.currentQuestionIndex < qs.length - 1 then
      (handleUserResponse qs s tr .nonOk).state.currentQuestionIndex
        = s.currentQuestionIndex + 1
    else (handleUserResponse qs s tr .nonOk).state.callStatus = .FINISHED) ∧
    ((handleUserResponse qs s tr .netErr).state.messages =
      s.messages ++ ⟨.user, tr⟩ ::
        (if s.currentQuestionIndex < qs.length - 1 then
          [⟨Role.assistant, qs.getD (s.currentQuestionIndex + 1) ""⟩]
        else [])) ∧
    (((handleUserResponse qs s tr .netErr).evs.all
      fun e => !(isAckStart e)) = true) ∧
    ((handleUserResponse qs s tr .netErr).state.isProcessing = false) ∧
    (if s.currentQuestionIndex < qs.length - 1 then
      (handleUserResponse qs s tr .netErr).state.currentQuestionIndex
        = s.currentQuestionIndex + 1
    else (handleUserResponse qs s tr .netErr).state.callStatus = .FINISHED) := by
  by_cases hlt : s.currentQuestionIndex < qs.length - 1
  · rw [hur_state_nonlast qs s tr .nonOk hp hws hlt,
      hur_evs_nonlast qs s tr .nonOk hp hws hlt,
      hur_state_nonlast qs s tr .netErr hp hws hlt,
      hur_evs_nonlast qs s tr .netErr hp hws hlt]
    simp [hlt, ackTurns, ackText, ackEvs, isAckStart]
  · rw [hur_state_last qs s tr .nonOk hp hsp hlt,
      hur_evs_last qs s tr .nonOk hp hlt,
      hur_state_last qs s tr .netErr hp hsp hlt,
      hur_evs_last qs s tr .netErr hp hlt]
    simp [hlt, ackTurns, ackText, ackEvs, closingEvs, isAckStart]

/-- Witness for C4 at a concrete state and question list. -/
theorem c4_witness :
    (handleUserResponse ["Q1", "Q2"]
        (MgrState.mk false .ACTIVE [] 0 true "" false true true true true)
        "a" .nonOk).state.messages =
      [⟨.user, "a"⟩, ⟨.assistant, fallbackAck⟩, ⟨Role.assistant, "Q2"⟩] ∧
    (handleUserResponse ["Q1", "Q2"]
        (MgrState.mk false .ACTIVE [] 0 true "" false true true true true)
        "a" .netErr).state.messages =
      [⟨.user, "a"⟩, ⟨Role.assistant, "Q2"⟩] := by
  have h := c4_service_failure_forward_progress ["Q1", "Q2"]
    (MgrState.mk false .ACTIVE [] 0 true "" false true true true true)
    "a" rfl rfl rfl
  refine ⟨?_, ?_⟩
  · have h1 := h.1
    simpa using h1
  · have h5 := h.2.2.2.2.1
    simpa using h5

/-- ackEvs unfolded for a returned (non-thrown) request. -/
theorem ackEvs_ne {out : SvcOutcome} (c : Nat) (h : out ≠ .netErr) :
    ackEvs c out =
      [.speakStart (.ack c) (ackText out), .speakEnd (.ack c) (ackText out)] := by
  cases out <;> simp_all [ackEvs]

/-- noEarlier is preserved by appending events on the right. -/
theorem noEarlier_append_left {l0 l1 : List Ev} {pa pb : Ev → Bool}
    (h : noEarlier l0 pa pb) : noEarlier (l0 ++ l1) pa pb := by
  obtain ⟨a1, a, a2, heq, hpa, hpb⟩ := h
  exact ⟨a1, a, a2 ++ l1, by rw [heq]; simp, hpa, hpb⟩

/-- noEarlier is preserved by prepending events in which the forbidden
predicate never holds. -/
theorem noEarlier_append_right {l0 l1 : List Ev} {pa pb : Ev → Bool}
    (hsafe : ∀ b ∈ l0, pb b = false) (h : noEarlier l1 pa pb) :
    noEarlier (l0 ++ l1) pa pb := by
  obtain ⟨a1, a, a2, heq, hpa, hpb⟩ := h
  refine ⟨l0 ++ a1, a, a2, by rw [heq]; simp, hpa, ?_⟩
  intro b hb
  rcases List.mem_append.mp hb with hb | hb
  · exact hsafe b hb
  · exact hpb b hb

/-- Ordering of the answer loop: the acknowledgement to answer k finishes
before question k+1 starts (when the k-th request returned), and the
capture launched for question k starts only after question k's playback
ended. -/
theorem runAnswers_ordering (qs : List String) :
    ∀ (ans : List (String × SvcOutcome)) (s : MgrState),
      s.isProcessing = false → s.wsOpen = true → s.isSpeaking = false →
      s.currentQuestionIndex + ans.length = qs.length →
      (∀ k, s.currentQuestionIndex ≤ k → k < qs.length →
        (ans.getD (k - s.currentQuestionIndex) ("", .netErr)).2 ≠ .netErr →
        noEarlier (runAnswers qs s ans).evs (isAckEnd k) (isQStart (k + 1))) ∧
      (∀ k, s.currentQuestionIndex < k → k < qs.length →
        noEarlier (runAnswers qs s ans).evs (isQEnd k) (isCaptureSome k))
  | [], s => by
    intro _ _ _ hlen
    constructor
    · intro k hk1 hk2 _
      exfalso
      simp at hlen
      omega
    · intro k hk1 hk2
      exfalso
      simp at hlen
      omega
  | (tr, out) :: rest, s => by
    obtain ⟨sp, cs, ms, ci, il, lt, ip, ws, msa, pc, ac⟩ := s
    intro hp hws hsp hlen
    simp only [MgrState.currentQuestionIndex, MgrState.isProcessing,
      MgrState.wsOpen, MgrState.isSpeaking] at hp hws hsp hlen ⊢
    have hlen' : ci + (rest.length + 1) = qs.length := by simpa using hlen
    by_cases hlt : ci < qs.length - 1
    · have hs' := hur_state_nonlast qs
        ⟨sp, cs, ms, ci, il, lt, ip, ws, msa, pc, ac⟩ tr out hp hws hlt
      have he' := hur_evs_nonlast qs
        ⟨sp, cs, ms, ci, il, lt, ip, ws, msa, pc, ac⟩ tr out hp hws hlt
      have ih := runAnswers_ordering qs rest
        (handleUserResponse qs ⟨sp, cs, ms, ci, il, lt, ip, ws, msa, pc, ac⟩
          tr out).state
      rw [hs'] at ih
      have ih2 := ih rfl rfl rfl
        (show ci + 1 + rest.length = qs.length by omega)
      constructor
      · intro k hk1 hk2 hne
        simp only [runAnswers]
        rw [hs', he']
        rcases Nat.eq_or_lt_of_le hk1 with heq | hkgt
        · subst heq
          have hne0 : out ≠ .netErr := by simpa using hne
          rw [ackEvs_ne _ hne0]
          apply noEarlier_append_left
          refine ⟨[.captureStop, .serviceCall tr (qs.getD ci ""),
            .speakStart (.ack ci) (ackText out)],
            .speakEnd (.ack ci) (ackText out),
            [.speakStart (.question (ci + 1)) (qs.getD (ci + 1) ""),
              .speakEnd (.question (ci + 1)) (qs.getD (ci + 1) ""),
              .captureStop, .captureStart (some (ci + 1))],
            by simp, by simp [isAckEnd], ?_⟩
          intro b hb
          simp at hb
          rcases hb with rfl | rfl | rfl <;> rfl
        · have hsub : k - ci = (k - (ci + 1)) + 1 := by omega
          rw [hsub, List.getD_cons_succ] at hne
          have htail := ih2.1 k (show ci + 1 ≤ k by omega) hk2 hne
          refine noEarlier_append_right ?_ htail
          intro b hb
          cases out <;> simp [ackEvs, ackText] at hb <;>
            rcases hb with rfl | rfl | rfl | rfl | rfl | rfl | rfl | rfl <;>
            simp [isQStart] <;> omega
      · intro k hk1 hk2
        simp only [runAnswers]
        rw [hs', he']
        rcases Nat.eq_or_lt_of_le (Nat.succ_le_of_lt hk1) with heq | hkgt
        · subst heq
          cases out with
          | netErr =>
            apply noEarlier_append_left
            refine ⟨[.captureStop, .serviceCall tr (qs.getD ci ""),
              .speakStart (.question (ci + 1)) (qs.getD (ci + 1) "")],
              .speakEnd (.question (ci + 1)) (qs.getD (ci + 1) ""),
              [.captureStop, .captureStart (some (ci + 1))],
              by simp [ackEvs], by simp [isQEnd], ?_⟩
            intro b hb
            simp at hb
            rcases hb with rfl | rfl | rfl <;> rfl
          | ok r =>
            apply noEarlier_append_left
            refine ⟨[.captureStop, .serviceCall tr (qs.getD ci ""),
              .speakStart (.ack ci) (ackText (.ok r)),
              .speakEnd (.ack ci) (ackText (.ok r)),
              .speakStart (.question (ci + 1)) (qs.getD (ci + 1) "")],
              .speakEnd (.question (ci + 1)) (qs.getD (ci + 1) ""),
              [.captureStop, .captureStart (some (ci + 1))],
              by simp [ackEvs], by simp [isQEnd], ?_⟩
            intro b hb
            simp at hb
            rcases hb with rfl | rfl | rfl | rfl | rfl <;> rfl
          | nonOk =>
            apply noEarlier_append_left
            refine ⟨[.captureStop, .serviceCall tr (qs.getD ci ""),
              .speakStart (.ack ci) (ackText .nonOk),
              .speakEnd (.ack ci) (ackText .nonOk),
              .speakStart (.question (ci + 1)) (qs.getD (ci + 1) "")],
              .speakEnd (.question (ci + 1)) (qs.getD (ci + 1) ""),
              [.captureStop, .captureStart (some (ci + 1))],
              by simp [ackEvs], by simp [isQEnd], ?_⟩
            intro b hb
            simp at hb
            rcases hb with rfl | rfl | rfl | rfl | rfl <;> rfl
        · have htail := ih2.2 k (show ci + 1 < k by omega) hk2
          refine noEarlier_append_right ?_ htail
          intro b hb
          cases out <;> simp [ackEvs, ackText] at hb <;>
            rcases hb with rfl | rfl | rfl | rfl | rfl | rfl | rfl | rfl <;>
            simp [isCaptureSome] <;> omega
    · have he' := hur_evs_last qs
        ⟨sp, cs, ms, ci, il, lt, ip, ws, msa, pc, ac⟩ tr out hp hlt
      have hrest : rest = [] := by
        cases rest with
        | nil => rfl
        | cons a l =>
          exfalso
          simp only [List.length_cons] at hlen'
          omega
      subst hrest
      simp only [List.length_nil] at hlen'
      constructor
      · intro k hk1 hk2 hne
        have hk : k = ci := by omega
        subst hk
        have hne0 : out ≠ .netErr := by simpa using hne
        simp only [runAnswers]
        rw [he', ackEvs_ne _ hne0]
        apply noEarlier_append_left
        refine ⟨[.captureStop, .serviceCall tr (qs.getD k ""),
          .speakStart (.ack k) (ackText out)],
          .speakEnd (.ack k) (ackText out),
          closingEvs out ++ [.captureStop, .wsClose],
          by simp, by simp [isAckEnd], ?_⟩
        intro b hb
        simp at hb
        rcases hb with rfl | rfl | rfl <;> rfl
      · intro k hk1 hk2
        exfalso
        omega

/-- C7 amended: in every fully-answered session, question k+1 is never
spoken before the acknowledgement to question k has finished playing
(whenever that acknowledgement exists, i.e. the k-th request returned),
and the capture attempt launched for question k (the restart in
askNextQuestion) never starts before question k's playback has completed
— for every k including the first; however, per the counterexample, the
connection-time capture is already open and listening before and during
question 0's playback, so the claim's blanket statement fails for the
first question. -/
theorem c7_turn_ordering (userName : String) (qs : List String)
    (ans : List (String × SvcOutcome)) (h1 : qs ≠ [])
    (h2 : ans.length = qs.length) :
    (∀ k, k < qs.length → (ans.getD k ("", .netErr)).2 ≠ .netErr →
      noEarlier (runSession userName qs ans).evs
        (isAckEnd k) (isQStart (k + 1))) ∧
    (∀ k, k < qs.length →
      noEarlier (runSession userName qs ans).evs
        (isQEnd k) (isCaptureSome k)) := by
  obtain ⟨q, qs'⟩ := List.exists_cons_of_ne_nil h1
  obtain ⟨qs'', rfl⟩ := qs'
  have hst := handleCall_state userName q qs''
  have hev := handleCall_evs userName q qs''
  have hord := runAnswers_ordering (q :: qs'') ans
    (handleCall userName (q :: qs'') initialState).state
  rw [hst] at hord
  have hord2 := hord rfl rfl rfl (by simpa using h2)
  constructor
  · intro k hk2 hne
    simp only [runSession]
    rw [hev, hst]
    apply noEarlier_append_right
    · intro b hb
      simp at hb
      rcases hb with rfl | rfl | rfl | rfl | rfl | rfl | rfl | rfl | rfl |
        rfl | rfl <;> simp [isQStart]
    · exact hord2.1 k (Nat.zero_le k) hk2 hne
  · intro k hk2
    cases k with
    | zero =>
      simp only [runSession]
      rw [hev, hst]
      apply noEarlier_append_left
      refine ⟨[.captureStop, .wsClose, .wsConnect, .captureStop,
        .captureStart none,
        .speakStart .greeting (greetingText userName (qs''.length + 1)),
        .speakEnd .greeting (greetingText userName (qs''.length + 1)),
        .speakStart (.question 0) q],
        .speakEnd (.question 0) q,
        [.captureStop, .captureStart (some 0)],
        by simp, by simp [isQEnd], ?_⟩
      intro b hb
      simp at hb
      rcases hb with rfl | rfl | rfl | rfl | rfl | rfl | rfl | rfl <;> rfl
    | succ j =>
      simp only [runSession]
      rw [hev, hst]
      apply noEarlier_append_right
      · intro b hb
        simp at hb
        rcases hb with rfl | rfl | rfl | rfl | rfl | rfl | rfl | rfl | rfl |
          rfl | rfl <;> rfl
      · exact hord2.2 (j + 1) (Nat.succ_pos j) hk2

/-- Witness for C7 at a concrete two-question session. -/
theorem c7_witness :
    noEarlier (runSession "Ana" ["Q1", "Q2"]
        [("a", .ok "G1"), ("b", .ok "G2")]).evs (isAckEnd 0) (isQStart 1) :=
  (c7_turn_ordering "Ana" ["Q1", "Q2"] [("a", .ok "G1"), ("b", .ok "G2")]
    (by decide) (by decide)).1 0 (by decide) (by decide)
